import Mathlib

/-!
Verification of the mode arbiter, dwell timer, stop-maneuver state machine
and command synthesis of `scripts/main_controller.py` (class `NodeController`)
from the `self_driving_turtlebot3` repository.

The controller state is embedded shallowly: each Python instance field becomes
a field of `Ctrl`; ROS message callbacks become pure state transformers; the
camera callback (the tick) becomes `camera_callback : ℚ → Ctrl → Option Ctrl`,
where `none` models an uncaught Python exception (an `IndexError` from list
indexing) aborting the callback before a velocity command is published.
Wall-clock time (`rospy.Time.now().to_sec()`) is a ℚ parameter of the tick.
-/

namespace TurtleBot

/-- State of `NodeController`: one field per Python instance attribute that the
claims concern.  Lists of rationals stand for the `Float32MultiArray.data`
payloads cached by the subscriber callbacks; `vel_linear`/`vel_angular` are the
persistent `self.vel_msg.linear.x` / `self.vel_msg.angular.z`; `linear_x` is
the `~linear_x` parameter read once at startup. -/
structure Ctrl where
  line_info : List ℚ
  stop_sign_info : List ℚ
  apriltag_info : List ℚ
  velocity_info : List ℚ
  timer1 : ℚ
  timer2 : ℚ
  mode_timer : ℚ
  mode : ℕ
  is_stop_sign : Bool
  transition_threshold : ℚ
  vel_linear : ℚ
  vel_angular : ℚ
  linear_x : ℚ
  deriving Repr, DecidableEq

/-- `NodeController.__init__`: empty detection caches, `velocity_info = [linear_x, 0]`,
timers zero, mode 1 (obstacle avoidance), latch clear, dwell threshold 1,
`Twist()` zero-initialized. -/
def init (lx : ℚ) : Ctrl :=
  { line_info := []
    stop_sign_info := []
    apriltag_info := []
    velocity_info := [lx, 0]
    timer1 := 0
    timer2 := 0
    mode_timer := 0
    mode := 1
    is_stop_sign := false
    transition_threshold := 1
    vel_linear := 0
    vel_angular := 0
    linear_x := lx }

/-- `NodeController.mode_decider`: precedence over the cached snapshot.
The first branch (`line_info and apriltag_info`) and the second (`line_info`)
both yield mode 2 with threshold 1, as in the source. -/
def mode_decider (s : Ctrl) : Ctrl :=
  if s.line_info ≠ [] ∧ s.apriltag_info ≠ [] then
    { s with mode := 2, transition_threshold := 1 }
  else if s.line_info ≠ [] then
    { s with mode := 2, transition_threshold := 1 }
  else if s.apriltag_info ≠ [] then
    { s with mode := 3, transition_threshold := 5 }
  else
    { s with mode := 1, transition_threshold := 1 }

/-- `NodeController.get_line_info`: store `msg.data` if truthy (non-empty), else `[]`. -/
def get_line_info (s : Ctrl) (data : List ℚ) : Ctrl :=
  if data ≠ [] then { s with line_info := data } else { s with line_info := [] }

/-- `NodeController.get_stop_sign_info`. -/
def get_stop_sign_info (s : Ctrl) (data : List ℚ) : Ctrl :=
  if data ≠ [] then { s with stop_sign_info := data } else { s with stop_sign_info := [] }

/-- `NodeController.get_apriltag_info`. -/
def get_apriltag_info (s : Ctrl) (data : List ℚ) : Ctrl :=
  if data ≠ [] then { s with apriltag_info := data } else { s with apriltag_info := [] }

/-- `NodeController.get_velocity_info`: stores `msg.data` unconditionally,
with no emptiness guard (unlike the three callbacks above). -/
def get_velocity_info (s : Ctrl) (data : List ℚ) : Ctrl :=
  { s with velocity_info := data }

/-- Index accesses performed by `NodeController.draw_detections`:
`line_info[0..1]`, `stop_sign_info[1..4]`, `apriltag_info[0..3]`, each behind a
truthiness guard.  `false` means the drawing code raises `IndexError`. -/
def draw_ok (s : Ctrl) : Bool :=
  (s.line_info.isEmpty || 2 ≤ s.line_info.length) &&
  (s.stop_sign_info.isEmpty || 5 ≤ s.stop_sign_info.length) &&
  (s.apriltag_info.isEmpty || 4 ≤ s.apriltag_info.length)

/-- The dwell-gating prologue of `camera_callback` (lines 148-153): seed the
timer if zero; otherwise re-evaluate the mode once the elapsed time reaches the
current `transition_threshold`, and reset the timer to zero. -/
def arbiterStep (now : ℚ) (s : Ctrl) : Ctrl :=
  if s.mode_timer = 0 then { s with mode_timer := now }
  else if s.transition_threshold ≤ now - s.mode_timer then
    { mode_decider s with mode_timer := 0 }
  else s

/-- Lines 172-174: the default line-following command `(linear_x / 2, 0)`. -/
def lineDefault (s : Ctrl) : Ctrl :=
  { s with vel_linear := s.linear_x / 2, vel_angular := 0 }

/-- Lines 176-178: steering override from the cached record's `line_info[-1]`. -/
def lineSteer (s : Ctrl) : Ctrl :=
  if s.line_info ≠ [] then { s with vel_angular := s.line_info.getLastD 0 } else s

/-- Lines 180-185: latch the stop flag when the cached sign record's area
(`stop_sign_info[-1]`) is at least 3300. -/
def signTrigger (s : Ctrl) : Ctrl :=
  if s.stop_sign_info ≠ [] ∧ 3300 ≤ s.stop_sign_info.getLastD 0 then
    { s with is_stop_sign := true } else s

/-- Lines 187-205: the nested 18s approach / 3s hold timer logic. -/
def stopTimerStep (now : ℚ) (s : Ctrl) : Ctrl :=
  if s.is_stop_sign then
    if s.timer1 = 0 then { s with timer1 := now }
    else if 18 ≤ now - s.timer1 then
      if s.timer2 = 0 then { s with timer2 := now, vel_angular := 0, vel_linear := 0 }
      else if now - s.timer2 < 3 then { s with vel_angular := 0, vel_linear := 0 }
      else { s with timer1 := 0, timer2 := 0, is_stop_sign := false }
    else s
  else s

/-- The mode-2 (line following) body of `camera_callback` (lines 170-205), as
the sequential composition of its four statement blocks. -/
def lineFollowStep (now : ℚ) (s : Ctrl) : Ctrl :=
  stopTimerStep now (signTrigger (lineSteer (lineDefault s)))

/-- `NodeController.camera_callback`: dwell-gated arbitration, then the
per-mode command synthesis, then `move_robot(self.vel_msg)` publishes the
(post-state) velocity fields.  `none` models an uncaught `IndexError`:
in mode 1 from `velocity_info[0..1]`, in mode 3 from `apriltag_info[4..5]`,
or in `draw_detections`. -/
def camera_callback (now : ℚ) (s : Ctrl) : Option Ctrl :=
  let s1 := arbiterStep now s
  if draw_ok s1 then
    match s1.mode with
    | 1 =>
      match s1.velocity_info with
      | a :: b :: _ => some { s1 with vel_linear := a, vel_angular := b }
      | _ => none
    | 2 => some (lineFollowStep now s1)
    | 3 =>
      if s1.apriltag_info ≠ [] then
        match s1.apriltag_info.drop 4 with
        | a :: b :: _ => some { s1 with vel_linear := a, vel_angular := b }
        | _ => none
      else some s1
    | _ => none
  else none

/-- Events delivered to the node: one per subscribed topic. -/
inductive Ev where
  | lineMsg (data : List ℚ)
  | stopMsg (data : List ℚ)
  | tagMsg (data : List ℚ)
  | velMsg (data : List ℚ)
  | tick (now : ℚ)
  deriving Repr, DecidableEq

/-- One event step; message callbacks never raise. -/
def step (s : Ctrl) : Ev → Option Ctrl
  | .lineMsg d => some (get_line_info s d)
  | .stopMsg d => some (get_stop_sign_info s d)
  | .tagMsg d => some (get_apriltag_info s d)
  | .velMsg d => some (get_velocity_info s d)
  | .tick now => camera_callback now s

/-- Run a sequence of events, stopping at the first fault. -/
def run (s : Ctrl) : List Ev → Option Ctrl
  | [] => some s
  | e :: es => match step s e with
    | some s' => run s' es
    | none => none

/-- The stop-maneuver phase abstraction of §3 of the specification. -/
inductive Phase where
  | inactive : Phase
  | approaching (t1 : ℚ) : Phase
  | holding (t1 t2 : ℚ) : Phase
  deriving Repr, DecidableEq

/-- The phase encoded by the `is_stop_sign` latch and the two timers. -/
def phase (s : Ctrl) : Phase :=
  if s.is_stop_sign = false then .inactive
  else if s.timer2 = 0 then .approaching s.timer1
  else .holding s.timer1 s.timer2

/-- Reachability invariant tying the latch to the timers: a clear latch means
both timers are clear, a set latch means the trigger timestamp is live, and a
live stop timestamp is positive. -/
def Inv (s : Ctrl) : Prop :=
  (s.is_stop_sign = false → s.timer1 = 0 ∧ s.timer2 = 0) ∧
  (s.is_stop_sign = true → 0 < s.timer1) ∧
  (s.timer2 ≠ 0 → 0 < s.timer2)

/-- The allowed single-step phase transitions: forward around the cycle
`inactive → approaching → holding → inactive`, timestamps preserved while a
cycle is in flight. -/
def PhaseStep : Phase → Phase → Prop
  | .inactive, .inactive => True
  | .inactive, .approaching _ => True
  | .approaching t1, .approaching t1' => t1' = t1
  | .approaching t1, .holding t1' _ => t1' = t1
  | .holding t1 t2, .holding t1' t2' => t1' = t1 ∧ t2' = t2
  | .holding _ _, .inactive => True
  | _, _ => False

/-- Ticks carry a positive wall-clock timestamp (ROS time is positive);
message events are unconstrained. -/
def EvPos : Ev → Prop
  | .tick now => 0 < now
  | _ => True

/-- Mode 1 in the `modes` dictionary. -/
def ObstacleAvoidance : ℕ := 1

/-- Mode 2 in the `modes` dictionary. -/
def LineFollowing : ℕ := 2

/-- Mode 3 in the `modes` dictionary. -/
def TagFollowing : ℕ := 3

/-- The constant linear velocity synthesized in line-following mode. -/
def normalLinear (s : Ctrl) : ℚ := s.linear_x / 2

/-- The angular velocity synthesized in line-following mode outside a forced
stop: the cached record's angular-velocity field if a line detection is
cached, else 0. -/
def normalAngular (s : Ctrl) : ℚ :=
  if s.line_info ≠ [] then s.line_info.getLastD 0 else 0

/-- The latch value the tick at time `now` sees after the trigger check:
either already latched, or freshly triggered by the cached sign record. -/
def stopLatched (s : Ctrl) : Prop :=
  s.is_stop_sign = true ∨ (s.stop_sign_info ≠ [] ∧ 3300 ≤ s.stop_sign_info.getLastD 0)

/-- The stop-maneuver forces `(0, 0)` on this tick: latched, past the 18s
approach window, and either just entering or still inside the 3s hold. -/
def holdActive (now : ℚ) (s : Ctrl) : Prop :=
  stopLatched s ∧ s.timer1 ≠ 0 ∧ 18 ≤ now - s.timer1 ∧
    (s.timer2 = 0 ∨ now - s.timer2 < 3)

section FrameLemmas

variable (now : ℚ) (s : Ctrl)

@[simp] lemma mode_decider_line : (mode_decider s).line_info = s.line_info := by
  unfold mode_decider; split_ifs <;> rfl

@[simp] lemma mode_decider_stop : (mode_decider s).stop_sign_info = s.stop_sign_info := by
  unfold mode_decider; split_ifs <;> rfl

@[simp] lemma mode_decider_tag : (mode_decider s).apriltag_info = s.apriltag_info := by
  unfold mode_decider; split_ifs <;> rfl

@[simp] lemma mode_decider_velinfo : (mode_decider s).velocity_info = s.velocity_info := by
  unfold mode_decider; split_ifs <;> rfl

@[simp] lemma mode_decider_timer1 : (mode_decider s).timer1 = s.timer1 := by
  unfold mode_decider; split_ifs <;> rfl

@[simp] lemma mode_decider_timer2 : (mode_decider s).timer2 = s.timer2 := by
  unfold mode_decider; split_ifs <;> rfl

@[simp] lemma mode_decider_latch : (mode_decider s).is_stop_sign = s.is_stop_sign := by
  unfold mode_decider; split_ifs <;> rfl

@[simp] lemma mode_decider_vl : (mode_decider s).vel_linear = s.vel_linear := by
  unfold mode_decider; split_ifs <;> rfl

@[simp] lemma mode_decider_va : (mode_decider s).vel_angular = s.vel_angular := by
  unfold mode_decider; split_ifs <;> rfl

@[simp] lemma mode_decider_lx : (mode_decider s).linear_x = s.linear_x := by
  unfold mode_decider; split_ifs <;> rfl

@[simp] lemma mode_decider_mtimer : (mode_decider s).mode_timer = s.mode_timer := by
  unfold mode_decider; split_ifs <;> rfl

@[simp] lemma arbiterStep_line : (arbiterStep now s).line_info = s.line_info := by
  unfold arbiterStep; split_ifs <;> simp

@[simp] lemma arbiterStep_stop : (arbiterStep now s).stop_sign_info = s.stop_sign_info := by
  unfold arbiterStep; split_ifs <;> simp

@[simp] lemma arbiterStep_tag : (arbiterStep now s).apriltag_info = s.apriltag_info := by
  unfold arbiterStep; split_ifs <;> simp

@[simp] lemma arbiterStep_velinfo : (arbiterStep now s).velocity_info = s.velocity_info := by
  unfold arbiterStep; split_ifs <;> simp

@[simp] lemma arbiterStep_timer1 : (arbiterStep now s).timer1 = s.timer1 := by
  unfold arbiterStep; split_ifs <;> simp

@[simp] lemma arbiterStep_timer2 : (arbiterStep now s).timer2 = s.timer2 := by
  unfold arbiterStep; split_ifs <;> simp

@[simp] lemma arbiterStep_latch : (arbiterStep now s).is_stop_sign = s.is_stop_sign := by
  unfold arbiterStep; split_ifs <;> simp

@[simp] lemma arbiterStep_vl : (arbiterStep now s).vel_linear = s.vel_linear := by
  unfold arbiterStep; split_ifs <;> simp

@[simp] lemma arbiterStep_va : (arbiterStep now s).vel_angular = s.vel_angular := by
  unfold arbiterStep; split_ifs <;> simp

@[simp] lemma arbiterStep_lx : (arbiterStep now s).linear_x = s.linear_x := by
  unfold arbiterStep; split_ifs <;> simp

@[simp] lemma lineDefault_line : (lineDefault s).line_info = s.line_info := rfl

@[simp] lemma lineDefault_stop : (lineDefault s).stop_sign_info = s.stop_sign_info := rfl

@[simp] lemma lineDefault_tag : (lineDefault s).apriltag_info = s.apriltag_info := rfl

@[simp] lemma lineDefault_velinfo : (lineDefault s).velocity_info = s.velocity_info := rfl

@[simp] lemma lineDefault_timer1 : (lineDefault s).timer1 = s.timer1 := rfl

@[simp] lemma lineDefault_timer2 : (lineDefault s).timer2 = s.timer2 := rfl

@[simp] lemma lineDefault_mtimer : (lineDefault s).mode_timer = s.mode_timer := rfl

@[simp] lemma lineDefault_mode : (lineDefault s).mode = s.mode := rfl

@[simp] lemma lineDefault_latch : (lineDefault s).is_stop_sign = s.is_stop_sign := rfl

@[simp] lemma lineDefault_thr :
    (lineDefault s).transition_threshold = s.transition_threshold := rfl

@[simp] lemma lineDefault_lx : (lineDefault s).linear_x = s.linear_x := rfl

@[simp] lemma lineDefault_vl : (lineDefault s).vel_linear = s.linear_x / 2 := rfl

@[simp] lemma lineDefault_va : (lineDefault s).vel_angular = 0 := rfl

@[simp] lemma lineSteer_line : (lineSteer s).line_info = s.line_info := by
  unfold lineSteer; split_ifs <;> rfl

@[simp] lemma lineSteer_stop : (lineSteer s).stop_sign_info = s.stop_sign_info := by
  unfold lineSteer; split_ifs <;> rfl

@[simp] lemma lineSteer_tag : (lineSteer s).apriltag_info = s.apriltag_info := by
  unfold lineSteer; split_ifs <;> rfl

@[simp] lemma lineSteer_velinfo : (lineSteer s).velocity_info = s.velocity_info := by
  unfold lineSteer; split_ifs <;> rfl

@[simp] lemma lineSteer_timer1 : (lineSteer s).timer1 = s.timer1 := by
  unfold lineSteer; split_ifs <;> rfl

@[simp] lemma lineSteer_timer2 : (lineSteer s).timer2 = s.timer2 := by
  unfold lineSteer; split_ifs <;> rfl

@[simp] lemma lineSteer_mtimer : (lineSteer s).mode_timer = s.mode_timer := by
  unfold lineSteer; split_ifs <;> rfl

@[simp] lemma lineSteer_mode : (lineSteer s).mode = s.mode := by
  unfold lineSteer; split_ifs <;> rfl

@[simp] lemma lineSteer_latch : (lineSteer s).is_stop_sign = s.is_stop_sign := by
  unfold lineSteer; split_ifs <;> rfl

@[simp] lemma lineSteer_thr :
    (lineSteer s).transition_threshold = s.transition_threshold := by
  unfold lineSteer; split_ifs <;> rfl

@[simp] lemma lineSteer_lx : (lineSteer s).linear_x = s.linear_x := by
  unfold lineSteer; split_ifs <;> rfl

@[simp] lemma lineSteer_vl : (lineSteer s).vel_linear = s.vel_linear := by
  unfold lineSteer; split_ifs <;> rfl

@[simp] lemma lineSteer_va :
    (lineSteer s).vel_angular =
      if s.line_info ≠ [] then s.line_info.getLastD 0 else s.vel_angular := by
  unfold lineSteer; split_ifs <;> rfl

@[simp] lemma signTrigger_line : (signTrigger s).line_info = s.line_info := by
  unfold signTrigger; split_ifs <;> rfl

@[simp] lemma signTrigger_stop : (signTrigger s).stop_sign_info = s.stop_sign_info := by
  unfold signTrigger; split_ifs <;> rfl

@[simp] lemma signTrigger_tag : (signTrigger s).apriltag_info = s.apriltag_info := by
  unfold signTrigger; split_ifs <;> rfl

@[simp] lemma signTrigger_velinfo : (signTrigger s).velocity_info = s.velocity_info := by
  unfold signTrigger; split_ifs <;> rfl

@[simp] lemma signTrigger_timer1 : (signTrigger s).timer1 = s.timer1 := by
  unfold signTrigger; split_ifs <;> rfl

@[simp] lemma signTrigger_timer2 : (signTrigger s).timer2 = s.timer2 := by
  unfold signTrigger; split_ifs <;> rfl

@[simp] lemma signTrigger_mtimer : (signTrigger s).mode_timer = s.mode_timer := by
  unfold signTrigger; split_ifs <;> rfl

@[simp] lemma signTrigger_mode : (signTrigger s).mode = s.mode := by
  unfold signTrigger; split_ifs <;> rfl

@[simp] lemma signTrigger_thr :
    (signTrigger s).transition_threshold = s.transition_threshold := by
  unfold signTrigger; split_ifs <;> rfl

@[simp] lemma signTrigger_lx : (signTrigger s).linear_x = s.linear_x := by
  unfold signTrigger; split_ifs <;> rfl

@[simp] lemma signTrigger_vl : (signTrigger s).vel_linear = s.vel_linear := by
  unfold signTrigger; split_ifs <;> rfl

@[simp] lemma signTrigger_va : (signTrigger s).vel_angular = s.vel_angular := by
  unfold signTrigger; split_ifs <;> rfl

@[simp] lemma signTrigger_latch :
    (signTrigger s).is_stop_sign =
      if s.stop_sign_info ≠ [] ∧ 3300 ≤ s.stop_sign_info.getLastD 0 then true
      else s.is_stop_sign := by
  unfold signTrigger; split_ifs <;> rfl

@[simp] lemma stopTimerStep_line : (stopTimerStep now s).line_info = s.line_info := by
  unfold stopTimerStep; split_ifs <;> rfl

@[simp] lemma stopTimerStep_stop :
    (stopTimerStep now s).stop_sign_info = s.stop_sign_info := by
  unfold stopTimerStep; split_ifs <;> rfl

@[simp] lemma stopTimerStep_tag :
    (stopTimerStep now s).apriltag_info = s.apriltag_info := by
  unfold stopTimerStep; split_ifs <;> rfl

@[simp] lemma stopTimerStep_velinfo :
    (stopTimerStep now s).velocity_info = s.velocity_info := by
  unfold stopTimerStep; split_ifs <;> rfl

@[simp] lemma stopTimerStep_mtimer :
    (stopTimerStep now s).mode_timer = s.mode_timer := by
  unfold stopTimerStep; split_ifs <;> rfl

@[simp] lemma stopTimerStep_mode : (stopTimerStep now s).mode = s.mode := by
  unfold stopTimerStep; split_ifs <;> rfl

@[simp] lemma stopTimerStep_thr :
    (stopTimerStep now s).transition_threshold = s.transition_threshold := by
  unfold stopTimerStep; split_ifs <;> rfl

@[simp] lemma stopTimerStep_lx : (stopTimerStep now s).linear_x = s.linear_x := by
  unfold stopTimerStep; split_ifs <;> rfl

@[simp] lemma lineFollowStep_line : (lineFollowStep now s).line_info = s.line_info := by
  simp [lineFollowStep]

@[simp] lemma lineFollowStep_stop :
    (lineFollowStep now s).stop_sign_info = s.stop_sign_info := by
  simp [lineFollowStep]

@[simp] lemma lineFollowStep_tag : (lineFollowStep now s).apriltag_info = s.apriltag_info := by
  simp [lineFollowStep]

@[simp] lemma lineFollowStep_velinfo :
    (lineFollowStep now s).velocity_info = s.velocity_info := by
  simp [lineFollowStep]

@[simp] lemma lineFollowStep_mode : (lineFollowStep now s).mode = s.mode := by
  simp [lineFollowStep]

@[simp] lemma lineFollowStep_mtimer : (lineFollowStep now s).mode_timer = s.mode_timer := by
  simp [lineFollowStep]

@[simp] lemma lineFollowStep_thr :
    (lineFollowStep now s).transition_threshold = s.transition_threshold := by
  simp [lineFollowStep]

@[simp] lemma lineFollowStep_lx : (lineFollowStep now s).linear_x = s.linear_x := by
  simp [lineFollowStep]

end FrameLemmas

section StopTimerCases

variable (now : ℚ) (s : Ctrl)

/-- Latch clear: the timer block is skipped. -/
lemma stopTimerStep_idle (h : s.is_stop_sign = false) : stopTimerStep now s = s := by
  simp [stopTimerStep, h]

/-- Latched with no trigger timestamp yet: seed `timer1 := now`. -/
lemma stopTimerStep_seed (hT : s.is_stop_sign = true) (h1 : s.timer1 = 0) :
    stopTimerStep now s = { s with timer1 := now } := by
  simp [stopTimerStep, hT, h1]

/-- Latched, within the 18s approach window: no state change. -/
lemma stopTimerStep_approach (hT : s.is_stop_sign = true) (h1 : s.timer1 ≠ 0)
    (hlt : now - s.timer1 < 18) : stopTimerStep now s = s := by
  simp [stopTimerStep, hT, h1, not_le.mpr hlt]

/-- Latched, approach window elapsed, no stop timestamp yet: record it and
force the velocity to zero. -/
lemma stopTimerStep_enterHold (hT : s.is_stop_sign = true) (h1 : s.timer1 ≠ 0)
    (hge : 18 ≤ now - s.timer1) (h2 : s.timer2 = 0) :
    stopTimerStep now s = { s with timer2 := now, vel_angular := 0, vel_linear := 0 } := by
  simp [stopTimerStep, hT, h1, hge, h2]

/-- Latched, within the 3s hold window: velocity forced to zero. -/
lemma stopTimerStep_hold (hT : s.is_stop_sign = true) (h1 : s.timer1 ≠ 0)
    (hge : 18 ≤ now - s.timer1) (h2 : s.timer2 ≠ 0) (hlt3 : now - s.timer2 < 3) :
    stopTimerStep now s = { s with vel_angular := 0, vel_linear := 0 } := by
  simp [stopTimerStep, hT, h1, hge, h2, hlt3]

/-- Latched, hold window elapsed: clear both timers and the latch. -/
lemma stopTimerStep_clear (hT : s.is_stop_sign = true) (h1 : s.timer1 ≠ 0)
    (hge : 18 ≤ now - s.timer1) (h2 : s.timer2 ≠ 0) (hge3 : 3 ≤ now - s.timer2) :
    stopTimerStep now s = { s with timer1 := 0, timer2 := 0, is_stop_sign := false } := by
  simp [stopTimerStep, hT, h1, hge, h2, not_lt.mpr hge3]

end StopTimerCases

/-- When the post-arbiter mode is 2 and drawing succeeds, the tick runs the
line-following body. -/
lemma camera_mode2 (now : ℚ) (s : Ctrl) (h2 : (arbiterStep now s).mode = 2)
    (hd : draw_ok (arbiterStep now s) = true) :
    camera_callback now s = some (lineFollowStep now (arbiterStep now s)) := by
  unfold camera_callback
  rw [if_pos hd, h2]

/-- Fields a successful tick never touches: the four caches, the configured
speed, and the arbiter fields produced by the prologue. -/
lemma camera_some_frame (now : ℚ) (s s' : Ctrl)
    (h : camera_callback now s = some s') :
    s'.line_info = s.line_info ∧ s'.stop_sign_info = s.stop_sign_info ∧
    s'.apriltag_info = s.apriltag_info ∧ s'.velocity_info = s.velocity_info ∧
    s'.linear_x = s.linear_x ∧ s'.mode = (arbiterStep now s).mode ∧
    s'.transition_threshold = (arbiterStep now s).transition_threshold ∧
    s'.mode_timer = (arbiterStep now s).mode_timer := by
  unfold camera_callback at h
  by_cases hd : draw_ok (arbiterStep now s) = true
  · rw [if_pos hd] at h
    rcases hm : (arbiterStep now s).mode with _ | _ | _ | _ | k <;> rw [hm] at h
    · simp at h
    · rcases hv : (arbiterStep now s).velocity_info with _ | ⟨a, _ | ⟨b, rest⟩⟩ <;>
        rw [hv] at h <;> simp at h
      subst h; simp [hm, ← hv]
    · simp at h
      subst h; simp [hm]
    · by_cases ht : (arbiterStep now s).apriltag_info ≠ []
      · rw [if_pos ht] at h
        rcases hdr : (arbiterStep now s).apriltag_info.drop 4 with _ | ⟨a, _ | ⟨b, rest⟩⟩ <;>
          rw [hdr] at h <;> simp at h
        subst h; simp [hm]
      · rw [if_neg ht] at h
        simp at h
        subst h; simp [hm]
    · simp at h
  · rw [if_neg hd] at h
    simp at h

/-- Ticks whose post-arbiter mode is not 2 never touch the stop-maneuver
timers, the latch, or the cached velocity command fields beyond the per-mode
assignment. -/
lemma camera_mode_ne2_frame (now : ℚ) (s s' : Ctrl)
    (h2 : (arbiterStep now s).mode ≠ 2) (h : camera_callback now s = some s') :
    s'.timer1 = s.timer1 ∧ s'.timer2 = s.timer2 ∧ s'.is_stop_sign = s.is_stop_sign := by
  unfold camera_callback at h
  by_cases hd : draw_ok (arbiterStep now s) = true
  · rw [if_pos hd] at h
    rcases hm : (arbiterStep now s).mode with _ | _ | _ | _ | k <;> rw [hm] at h
    · simp at h
    · rcases hv : (arbiterStep now s).velocity_info with _ | ⟨a, _ | ⟨b, rest⟩⟩ <;>
        rw [hv] at h <;> simp at h
      subst h; simp
    · exact absurd hm h2
    · by_cases ht : (arbiterStep now s).apriltag_info ≠ []
      · rw [if_pos ht] at h
        rcases hdr : (arbiterStep now s).apriltag_info.drop 4 with _ | ⟨a, _ | ⟨b, rest⟩⟩ <;>
          rw [hdr] at h <;> simp at h
        subst h; simp
      · rw [if_neg ht] at h
        simp at h
        subst h; simp
    · simp at h
  · rw [if_neg hd] at h
    simp at h

/-- C3: at a dwell boundary `mode_decider` is a pure function of the cached
snapshot with fixed precedence: a cached line detection (regardless of any
marker detection) yields `LineFollowing` with dwell threshold 1; otherwise a
cached marker detection yields `TagFollowing` with dwell threshold 5;
otherwise `ObstacleAvoidance` with dwell threshold 1. -/
theorem mode_decider_precedence (s : Ctrl) :
    ((mode_decider s).mode, (mode_decider s).transition_threshold) =
      (if s.line_info ≠ [] then (LineFollowing, (1 : ℚ))
       else if s.apriltag_info ≠ [] then (TagFollowing, 5)
       else (ObstacleAvoidance, 1)) := by
  unfold mode_decider LineFollowing TagFollowing ObstacleAvoidance
  split_ifs <;> simp_all

/-- C2: the mode is re-evaluated only when the elapsed time since the dwell
timer was seeded reaches the dwell threshold set by the previous decision;
a tick that seeds the timer or falls short of the threshold leaves the mode
and the threshold untouched no matter what the perception snapshot holds,
and the re-evaluating tick gates on the pre-tick (previous decision's)
threshold and only then adopts the fresh decision. -/
theorem dwell_gate_characterization (now : ℚ) (s : Ctrl) :
    (s.mode_timer = 0 → arbiterStep now s = { s with mode_timer := now }) ∧
    (s.mode_timer ≠ 0 → now - s.mode_timer < s.transition_threshold →
       arbiterStep now s = s) ∧
    (s.mode_timer ≠ 0 → s.transition_threshold ≤ now - s.mode_timer →
       arbiterStep now s = { mode_decider s with mode_timer := 0 }) ∧
    (∀ s', (s.mode_timer = 0 ∨ now - s.mode_timer < s.transition_threshold) →
       camera_callback now s = some s' →
       s'.mode = s.mode ∧ s'.transition_threshold = s.transition_threshold) := by
  refine ⟨?_, ?_, ?_, ?_⟩
  · intro h0; unfold arbiterStep; rw [if_pos h0]
  · intro h0 hlt; unfold arbiterStep; rw [if_neg h0, if_neg (not_le.mpr hlt)]
  · intro h0 hge; unfold arbiterStep; rw [if_neg h0, if_pos hge]
  · intro s' hgate h
    obtain ⟨-, -, -, -, -, hmode, hthr, -⟩ := camera_some_frame now s s' h
    have harb : (arbiterStep now s).mode = s.mode ∧
        (arbiterStep now s).transition_threshold = s.transition_threshold := by
      unfold arbiterStep
      rcases hgate with h0 | hlt
      · rw [if_pos h0]; exact ⟨rfl, rfl⟩
      · by_cases h0 : s.mode_timer = 0
        · rw [if_pos h0]; exact ⟨rfl, rfl⟩
        · rw [if_neg h0, if_neg (not_le.mpr hlt)]; exact ⟨rfl, rfl⟩
    exact ⟨hmode.trans harb.1, hthr.trans harb.2⟩

/-- Witness for `dwell_gate_characterization`: a seeding tick at `now = 5`
from the initial state, and a re-evaluating tick from a mid-dwell state. -/
theorem dwell_gate_witness :
    arbiterStep 5 (init 4) = { init 4 with mode_timer := 5 } ∧
    arbiterStep 5 { init 4 with mode_timer := 1 } =
      { mode_decider { init 4 with mode_timer := 1 } with mode_timer := 0 } := by
  constructor
  · exact (dwell_gate_characterization 5 (init 4)).1 rfl
  · refine (dwell_gate_characterization 5 { init 4 with mode_timer := 1 }).2.2.1
      (by norm_num [init]) (by norm_num [init])

/-- C1: determinism of the stop-maneuver cycle in line-following mode.  With
`t` the state after a mode-2 tick at wall-clock `now` (conjunct 1 ties `t` to
`camera_callback`): a cached sign record with area ≥ 3300 seen while inactive
starts the cycle with `trigger_ts = now` while the normal line-following
output continues (conjunct 2); within 18s of the trigger the output stays
normal and the cycle state is untouched (conjunct 3); once 18s elapse the
stop timestamp is recorded and the output is forced to `(0, 0)` (conjunct 4),
and stays forced while less than 3s have elapsed from it (conjunct 5); once
3s elapse both timers and the latch are cleared and the normal output resumes
on that same tick (conjunct 6).  Conjuncts 3-6 place no hypothesis on the
sign cache, so sign detections arriving during the cycle, below or above
threshold, do not alter it. -/
theorem stop_cycle_characterization (now : ℚ) (s1 t : Ctrl)
    (h2 : s1.mode = LineFollowing) (ht : t = lineFollowStep now s1) :
    (∀ s, arbiterStep now s = s1 → draw_ok s1 = true →
      camera_callback now s = some t) ∧
    (s1.is_stop_sign = false → s1.timer1 = 0 →
      s1.stop_sign_info ≠ [] → 3300 ≤ s1.stop_sign_info.getLastD 0 →
      t.vel_linear = normalLinear s1 ∧ t.vel_angular = normalAngular s1 ∧
      t.is_stop_sign = true ∧ t.timer1 = now ∧ t.timer2 = s1.timer2) ∧
    (s1.is_stop_sign = true → s1.timer1 ≠ 0 → now - s1.timer1 < 18 →
      t.vel_linear = normalLinear s1 ∧ t.vel_angular = normalAngular s1 ∧
      t.is_stop_sign = true ∧ t.timer1 = s1.timer1 ∧ t.timer2 = s1.timer2) ∧
    (s1.is_stop_sign = true → s1.timer1 ≠ 0 → s1.timer2 = 0 → 18 ≤ now - s1.timer1 →
      t.vel_linear = 0 ∧ t.vel_angular = 0 ∧
      t.is_stop_sign = true ∧ t.timer1 = s1.timer1 ∧ t.timer2 = now) ∧
    (s1.is_stop_sign = true → s1.timer1 ≠ 0 → s1.timer2 ≠ 0 →
      18 ≤ now - s1.timer1 → now - s1.timer2 < 3 →
      t.vel_linear = 0 ∧ t.vel_angular = 0 ∧
      t.is_stop_sign = true ∧ t.timer1 = s1.timer1 ∧ t.timer2 = s1.timer2) ∧
    (s1.is_stop_sign = true → s1.timer1 ≠ 0 → s1.timer2 ≠ 0 →
      18 ≤ now - s1.timer1 → 3 ≤ now - s1.timer2 →
      t.vel_linear = normalLinear s1 ∧ t.vel_angular = normalAngular s1 ∧
      t.is_stop_sign = false ∧ t.timer1 = 0 ∧ t.timer2 = 0) := by
  subst ht
  refine ⟨?_, ?_, ?_, ?_, ?_, ?_⟩
  · intro s hs hd
    have h2' : (arbiterStep now s).mode = 2 := by rw [hs]; exact h2
    have hd' : draw_ok (arbiterStep now s) = true := by rw [hs]; exact hd
    rw [camera_mode2 now s h2' hd', hs]
  · intro hL h1 hsn hsa
    have hsa' : 3300 ≤ s1.stop_sign_info.getLast?.getD 0 := by
      rw [← List.getLastD_eq_getLast?]; exact hsa
    rw [lineFollowStep,
      stopTimerStep_seed now _ (by simp [hsn]; exact Or.inl hsa') (by simp [h1])]
    refine ⟨by simp [normalLinear], by simp [normalAngular], ?_, by simp, by simp⟩
    simp [hsn]; exact Or.inl hsa'
  · intro hL h1 hlt
    rw [lineFollowStep,
      stopTimerStep_approach now _ (by simp [hL]) (by simp [h1]) (by simpa using hlt)]
    exact ⟨by simp [normalLinear], by simp [normalAngular], by simp [hL], by simp, by simp⟩
  · intro hL h1 h20 hge
    rw [lineFollowStep,
      stopTimerStep_enterHold now _ (by simp [hL]) (by simp [h1]) (by simpa using hge)
        (by simp [h20])]
    exact ⟨rfl, rfl, by simp [hL], by simp, rfl⟩
  · intro hL h1 h2n hge hlt3
    rw [lineFollowStep,
      stopTimerStep_hold now _ (by simp [hL]) (by simp [h1]) (by simpa using hge)
        (by simp [h2n]) (by simpa using hlt3)]
    exact ⟨rfl, rfl, by simp [hL], by simp, by simp⟩
  · intro hL h1 h2n hge hge3
    rw [lineFollowStep,
      stopTimerStep_clear now _ (by simp [hL]) (by simp [h1]) (by simpa using hge)
        (by simp [h2n]) (by simpa using hge3)]
    exact ⟨by simp [normalLinear], by simp [normalAngular], rfl, rfl, rfl⟩

section CallbackFrames

variable (s : Ctrl) (d : List ℚ)

@[simp] lemma get_line_timer1 : (get_line_info s d).timer1 = s.timer1 := by
  unfold get_line_info; split_ifs <;> rfl

@[simp] lemma get_line_timer2 : (get_line_info s d).timer2 = s.timer2 := by
  unfold get_line_info; split_ifs <;> rfl

@[simp] lemma get_line_latch : (get_line_info s d).is_stop_sign = s.is_stop_sign := by
  unfold get_line_info; split_ifs <;> rfl

@[simp] lemma get_stop_timer1 : (get_stop_sign_info s d).timer1 = s.timer1 := by
  unfold get_stop_sign_info; split_ifs <;> rfl

@[simp] lemma get_stop_timer2 : (get_stop_sign_info s d).timer2 = s.timer2 := by
  unfold get_stop_sign_info; split_ifs <;> rfl

@[simp] lemma get_stop_latch : (get_stop_sign_info s d).is_stop_sign = s.is_stop_sign := by
  unfold get_stop_sign_info; split_ifs <;> rfl

@[simp] lemma get_tag_timer1 : (get_apriltag_info s d).timer1 = s.timer1 := by
  unfold get_apriltag_info; split_ifs <;> rfl

@[simp] lemma get_tag_timer2 : (get_apriltag_info s d).timer2 = s.timer2 := by
  unfold get_apriltag_info; split_ifs <;> rfl

@[simp] lemma get_tag_latch : (get_apriltag_info s d).is_stop_sign = s.is_stop_sign := by
  unfold get_apriltag_info; split_ifs <;> rfl

@[simp] lemma get_vel_timer1 : (get_velocity_info s d).timer1 = s.timer1 := rfl

@[simp] lemma get_vel_timer2 : (get_velocity_info s d).timer2 = s.timer2 := rfl

@[simp] lemma get_vel_latch : (get_velocity_info s d).is_stop_sign = s.is_stop_sign := rfl

end CallbackFrames

/-- `phase` only reads the latch and the two timers. -/
lemma phase_eq_of (s s' : Ctrl) (h1 : s'.is_stop_sign = s.is_stop_sign)
    (h2 : s'.timer1 = s.timer1) (h3 : s'.timer2 = s.timer2) : phase s' = phase s := by
  unfold phase; rw [h1, h2, h3]

/-- `Inv` only reads the latch and the two timers. -/
lemma Inv_iff_of (s s' : Ctrl) (h1 : s'.is_stop_sign = s.is_stop_sign)
    (h2 : s'.timer1 = s.timer1) (h3 : s'.timer2 = s.timer2) : Inv s' ↔ Inv s := by
  unfold Inv; rw [h1, h2, h3]

/-- `PhaseStep` is reflexive. -/
lemma PhaseStep_rfl (p : Phase) : PhaseStep p p := by
  cases p <;> simp [PhaseStep]

/-- One mode-2 body preserves the timer invariant and moves the phase along
at most one allowed edge. -/
lemma lineFollow_phase (now : ℚ) (s : Ctrl) (hpos : 0 < now) (hInv : Inv s) :
    Inv (lineFollowStep now s) ∧ PhaseStep (phase s) (phase (lineFollowStep now s)) := by
  rw [lineFollowStep]
  set t := signTrigger (lineSteer (lineDefault s)) with ht
  have htl : t.timer1 = s.timer1 := by simp [ht]
  have ht2 : t.timer2 = s.timer2 := by simp [ht]
  by_cases hss : s.is_stop_sign = true
  · have hT : t.is_stop_sign = true := by simp [ht, hss]
    have h1pos : 0 < s.timer1 := hInv.2.1 hss
    have h1 : t.timer1 ≠ 0 := by rw [htl]; exact ne_of_gt h1pos
    by_cases h18 : 18 ≤ now - t.timer1
    · by_cases h20 : t.timer2 = 0
      · rw [stopTimerStep_enterHold now t hT h1 h18 h20]
        constructor
        · refine ⟨by simp [hT], fun _ => by simpa [htl] using h1pos, fun _ => by simpa using hpos⟩
        · have hp : phase s = .approaching s.timer1 := by
            simp [phase, hss, ← ht2, h20]
          have hp' : phase { t with timer2 := now, vel_angular := 0, vel_linear := 0 } =
              .holding s.timer1 now := by
            simp [phase, hT, htl, ne_of_gt hpos]
          rw [hp, hp']
          simp [PhaseStep]
      · by_cases h3 : now - t.timer2 < 3
        · rw [stopTimerStep_hold now t hT h1 h18 h20 h3]
          have h20' : ¬ s.timer2 = 0 := by rw [← ht2]; exact h20
          constructor
          · refine ⟨by simp [hT], fun _ => by simpa [htl] using h1pos,
              fun h => by simpa [ht2] using hInv.2.2 h20'⟩
          · have hp : phase s = .holding s.timer1 s.timer2 := by
              simp [phase, hss, h20, ← ht2]
            have hp' : phase { t with vel_angular := 0, vel_linear := 0 } =
                .holding s.timer1 s.timer2 := by
              simp [phase, hT, htl, ht2, h20']
            rw [hp, hp']
            simp [PhaseStep]
        · rw [stopTimerStep_clear now t hT h1 h18 h20 (le_of_not_lt h3)]
          constructor
          · exact ⟨fun _ => ⟨rfl, rfl⟩, by simp, by simp⟩
          · have hp : phase s = .holding s.timer1 s.timer2 := by
              simp [phase, hss, h20, ← ht2]
            have hp' : phase { t with timer1 := 0, timer2 := 0, is_stop_sign := false } =
                .inactive := by
              simp [phase]
            rw [hp, hp']
            simp [PhaseStep]
    · rw [stopTimerStep_approach now t hT h1 (lt_of_not_le h18)]
      constructor
      · rw [Inv_iff_of s t (by simp [ht, hss, hT]) htl ht2]
        exact hInv
      · rw [phase_eq_of s t (by simp [ht, hss, hT]) htl ht2]
        exact PhaseStep_rfl _
  · have hss' : s.is_stop_sign = false := by
      cases h : s.is_stop_sign
      · rfl
      · exact absurd h hss
    obtain ⟨h10, h20⟩ := hInv.1 hss'
    by_cases hc : s.stop_sign_info ≠ [] ∧ 3300 ≤ s.stop_sign_info.getLast?.getD 0
    · have hT : t.is_stop_sign = true := by
        simp [ht, hc.1]
        exact Or.inl hc.2
      rw [stopTimerStep_seed now t hT (by rw [htl]; exact h10)]
      constructor
      · exact ⟨by simp [hT], fun _ => by simpa using hpos,
          fun h => absurd (by simpa [ht2] using h20) h⟩
      · have hp : phase s = .inactive := by simp [phase, hss']
        have hp' : phase { t with timer1 := now } = .approaching now := by
          simp [phase, hT, ht2, h20, ne_of_gt hpos]
        rw [hp, hp']
        simp [PhaseStep]
    · have hT : t.is_stop_sign = false := by
        simp only [ht, signTrigger_latch, lineSteer_stop, lineDefault_stop,
          lineSteer_latch, lineDefault_latch]
        rw [if_neg, hss']
        rw [List.getLastD_eq_getLast?]
        exact hc
      rw [stopTimerStep_idle now t hT]
      constructor
      · rw [Inv_iff_of s t (by rw [hT, hss']) htl ht2]
        exact hInv
      · rw [phase_eq_of s t (by rw [hT, hss']) htl ht2]
        exact PhaseStep_rfl _

/-- A successful tick whose post-arbiter mode is 2 produced exactly the
line-following body's state. -/
lemma camera_mode2_inv (now : ℚ) (s s' : Ctrl) (h2 : (arbiterStep now s).mode = 2)
    (h : camera_callback now s = some s') :
    s' = lineFollowStep now (arbiterStep now s) := by
  unfold camera_callback at h
  by_cases hd : draw_ok (arbiterStep now s) = true
  · rw [if_pos hd, h2] at h
    simp at h
    exact h.symm
  · rw [if_neg hd] at h
    simp at h

/-- C4: the stop-maneuver state moves only forward through
`Inactive → Approaching → HoldingStop → Inactive`.  Every event — channel
update or tick with positive timestamp — taken from a state satisfying the
timer invariant preserves the invariant and moves the phase along at most one
allowed edge of the cycle, preserving the latched timestamps; in particular
no event skips a phase, reverses one, or starts a second cycle while one is
in flight. -/
theorem stop_phase_monotone (s : Ctrl) (e : Ev) (s' : Ctrl)
    (hInv : Inv s) (hpos : EvPos e) (hstep : step s e = some s') :
    Inv s' ∧ PhaseStep (phase s) (phase s') := by
  cases e with
  | lineMsg d =>
      simp only [step, Option.some.injEq] at hstep
      subst hstep
      rw [Inv_iff_of s (get_line_info s d) (by simp) (by simp) (by simp),
          phase_eq_of s (get_line_info s d) (by simp) (by simp) (by simp)]
      exact ⟨hInv, PhaseStep_rfl _⟩
  | stopMsg d =>
      simp only [step, Option.some.injEq] at hstep
      subst hstep
      rw [Inv_iff_of s (get_stop_sign_info s d) (by simp) (by simp) (by simp),
          phase_eq_of s (get_stop_sign_info s d) (by simp) (by simp) (by simp)]
      exact ⟨hInv, PhaseStep_rfl _⟩
  | tagMsg d =>
      simp only [step, Option.some.injEq] at hstep
      subst hstep
      rw [Inv_iff_of s (get_apriltag_info s d) (by simp) (by simp) (by simp),
          phase_eq_of s (get_apriltag_info s d) (by simp) (by simp) (by simp)]
      exact ⟨hInv, PhaseStep_rfl _⟩
  | velMsg d =>
      simp only [step, Option.some.injEq] at hstep
      subst hstep
      rw [Inv_iff_of s (get_velocity_info s d) (by simp) (by simp) (by simp),
          phase_eq_of s (get_velocity_info s d) (by simp) (by simp) (by simp)]
      exact ⟨hInv, PhaseStep_rfl _⟩
  | tick now =>
      simp only [step] at hstep
      by_cases h2 : (arbiterStep now s).mode = 2
      · have hs' := camera_mode2_inv now s s' h2 hstep
        subst hs'
        have hInvU : Inv (arbiterStep now s) :=
          (Inv_iff_of s _ (by simp) (by simp) (by simp)).mpr hInv
        obtain ⟨hI, hP⟩ := lineFollow_phase now (arbiterStep now s) hpos hInvU
        refine ⟨hI, ?_⟩
        rwa [phase_eq_of s (arbiterStep now s) (by simp) (by simp) (by simp)] at hP
      · obtain ⟨ht1, ht2, hl⟩ := camera_mode_ne2_frame now s s' h2 hstep
        rw [Inv_iff_of s s' hl ht1 ht2, phase_eq_of s s' hl ht1 ht2]
        exact ⟨hInv, PhaseStep_rfl _⟩

/-- Witness for `stop_phase_monotone`: the first tick from the initial state
(mode 1) keeps the cycle `Inactive` and preserves the invariant. -/
theorem stop_phase_witness :
    Inv { init 4 with mode_timer := 1, vel_linear := 4, vel_angular := 0 } ∧
    PhaseStep (phase (init 4))
      (phase { init 4 with mode_timer := 1, vel_linear := 4, vel_angular := 0 }) :=
  stop_phase_monotone (init 4) (Ev.tick 1) _
    (by unfold Inv init; norm_num) (by unfold EvPos; norm_num) (by decide)

/-- Concrete mode-2 state for the stop-cycle witness: a cycle in its approach
phase with trigger timestamp 2. -/
def cW : Ctrl :=
  { line_info := [1, 2, 9], stop_sign_info := [], apriltag_info := [],
    velocity_info := [4, 0], timer1 := 2, timer2 := 0, mode_timer := 5,
    mode := 2, is_stop_sign := true, transition_threshold := 1,
    vel_linear := 0, vel_angular := 0, linear_x := 4 }

/-- Witness for `stop_cycle_characterization`: at `now = 21`, 19s past the
trigger, the hold begins — output forced to `(0, 0)`, `stop_ts = 21`. -/
theorem stop_cycle_witness :
    (lineFollowStep 21 cW).vel_linear = 0 ∧ (lineFollowStep 21 cW).vel_angular = 0 ∧
    (lineFollowStep 21 cW).is_stop_sign = true ∧
    (lineFollowStep 21 cW).timer1 = cW.timer1 ∧ (lineFollowStep 21 cW).timer2 = 21 :=
  (stop_cycle_characterization 21 cW (lineFollowStep 21 cW) rfl rfl).2.2.2.1
    rfl (by norm_num [cW]) rfl (by norm_num [cW])

/-- C5: a tick whose arbitrated mode is not LineFollowing leaves the
stop-maneuver timers and latch untouched; since the stored timestamps are
absolute wall-clock instants, the elapsed durations measured against them at
any later instant keep accruing during the absence, independently of the
arbiter's mode. -/
theorem stop_timers_wallclock (now : ℚ) (s s' : Ctrl)
    (hmode : (arbiterStep now s).mode ≠ LineFollowing)
    (hstep : camera_callback now s = some s') :
    s'.timer1 = s.timer1 ∧ s'.timer2 = s.timer2 ∧ s'.is_stop_sign = s.is_stop_sign ∧
    phase s' = phase s ∧
    (∀ later : ℚ, later - s'.timer1 = later - s.timer1 ∧
      later - s'.timer2 = later - s.timer2) := by
  obtain ⟨h1, h2, hl⟩ := camera_mode_ne2_frame now s s' hmode hstep
  exact ⟨h1, h2, hl, phase_eq_of s s' hl h1 h2,
    fun later => ⟨by rw [h1], by rw [h2]⟩⟩

/-- Mid-cycle state used by the wall-clock witness: latch set, trigger
timestamp 2, but current mode 1 (obstacle avoidance). -/
def sV : Ctrl := { init 4 with is_stop_sign := true, timer1 := 2 }

/-- Post-tick state of the wall-clock witness. -/
def sV' : Ctrl := { sV with mode_timer := 1, vel_linear := 4, vel_angular := 0 }

/-- Witness for `stop_timers_wallclock`: a mode-1 tick at `now = 1` leaves
the in-flight timers untouched. -/
theorem stop_timers_wallclock_witness :
    sV'.timer1 = sV.timer1 ∧ sV'.timer2 = sV.timer2 ∧
    sV'.is_stop_sign = sV.is_stop_sign ∧ phase sV' = phase sV ∧
    ((30 : ℚ) - sV'.timer1 = 30 - sV.timer1 ∧ (30 : ℚ) - sV'.timer2 = 30 - sV.timer2) := by
  have h := stop_timers_wallclock 1 sV sV' (by decide) (by decide)
  exact ⟨h.1, h.2.1, h.2.2.1, h.2.2.2.1, h.2.2.2.2 30⟩

/-- The trigger check of lines 181-185 leaves the tick latched iff the latch
was already set or the cached sign record's area is at least 3300. -/
lemma trigger_latch (s : Ctrl) :
    (signTrigger (lineSteer (lineDefault s))).is_stop_sign = true ↔ stopLatched s := by
  unfold stopLatched
  rw [signTrigger_latch]
  simp only [lineSteer_stop, lineDefault_stop, lineSteer_latch, lineDefault_latch]
  split_ifs with hc
  · rw [List.getLastD_eq_getLast?] at hc
    simp [hc]
  · rw [List.getLastD_eq_getLast?] at hc
    simp [hc]

/-- Command synthesis of a successful mode-2 tick, split on whether the stop
maneuver forces `(0, 0)` this tick. -/
lemma camera_mode2_command (now : ℚ) (s s' : Ctrl)
    (h2 : (arbiterStep now s).mode = LineFollowing)
    (hstep : camera_callback now s = some s') :
    (holdActive now s → s'.vel_linear = 0 ∧ s'.vel_angular = 0) ∧
    (¬ holdActive now s → s'.vel_linear = normalLinear s ∧
      s'.vel_angular = normalAngular s) := by
  have hs' := camera_mode2_inv now s s' h2 hstep
  subst hs'
  rw [lineFollowStep]
  set t := signTrigger (lineSteer (lineDefault (arbiterStep now s))) with htdef
  have htl : t.timer1 = s.timer1 := by simp [htdef]
  have ht2 : t.timer2 = s.timer2 := by simp [htdef]
  have hvl : t.vel_linear = normalLinear s := by simp [htdef, normalLinear]
  have hva : t.vel_angular = normalAngular s := by simp [htdef, normalAngular]
  by_cases hL : stopLatched s
  · have hT : t.is_stop_sign = true := by
      rw [htdef]
      refine (trigger_latch (arbiterStep now s)).mpr ?_
      unfold stopLatched at hL ⊢
      simpa using hL
    by_cases h1 : s.timer1 = 0
    · rw [stopTimerStep_seed now t hT (by rw [htl]; exact h1)]
      have hnh : ¬ holdActive now s := fun h => h.2.1 h1
      exact ⟨fun h => absurd h hnh, fun _ => ⟨by simpa using hvl, by simpa using hva⟩⟩
    · by_cases h18 : 18 ≤ now - s.timer1
      · by_cases h20 : s.timer2 = 0
        · rw [stopTimerStep_enterHold now t hT (by rw [htl]; exact h1)
            (by rw [htl]; exact h18) (by rw [ht2]; exact h20)]
          have hh : holdActive now s := ⟨hL, h1, h18, Or.inl h20⟩
          exact ⟨fun _ => ⟨rfl, rfl⟩, fun hn => absurd hh hn⟩
        · by_cases h3 : now - s.timer2 < 3
          · rw [stopTimerStep_hold now t hT (by rw [htl]; exact h1)
              (by rw [htl]; exact h18) (by rw [ht2]; exact h20) (by rw [ht2]; exact h3)]
            have hh : holdActive now s := ⟨hL, h1, h18, Or.inr h3⟩
            exact ⟨fun _ => ⟨rfl, rfl⟩, fun hn => absurd hh hn⟩
          · rw [stopTimerStep_clear now t hT (by rw [htl]; exact h1)
              (by rw [htl]; exact h18) (by rw [ht2]; exact h20)
              (by rw [ht2]; exact le_of_not_lt h3)]
            have hnh : ¬ holdActive now s := by
              rintro ⟨-, -, -, hd⟩
              rcases hd with hd | hd
              · exact h20 hd
              · exact h3 hd
            exact ⟨fun h => absurd h hnh, fun _ => ⟨by simpa using hvl, by simpa using hva⟩⟩
      · rw [stopTimerStep_approach now t hT (by rw [htl]; exact h1)
          (by rw [htl]; exact lt_of_not_le h18)]
        have hnh : ¬ holdActive now s := fun h => h18 h.2.2.1
        exact ⟨fun h => absurd h hnh, fun _ => ⟨hvl, hva⟩⟩
  · have hLs : ¬ stopLatched (arbiterStep now s) := by
      unfold stopLatched at hL ⊢
      simpa using hL
    have hT : t.is_stop_sign = false := by
      rw [htdef]
      cases hb : (signTrigger (lineSteer (lineDefault (arbiterStep now s)))).is_stop_sign
      · rfl
      · exact absurd ((trigger_latch (arbiterStep now s)).mp hb) hLs
    rw [stopTimerStep_idle now t hT]
    have hnh : ¬ holdActive now s := fun h => hL h.1
    exact ⟨fun h => absurd h hnh, fun _ => ⟨hvl, hva⟩⟩

/-- C6: in line-following mode the synthesized command has linear velocity
equal to the configured nominal speed divided by 2, and angular velocity equal
to the cached steering value when a line detection exists this tick (0
otherwise); while the stop maneuver is holding this tick the forced `(0, 0)`
overrides both fields. -/
theorem line_follow_command (now : ℚ) (s s' : Ctrl)
    (h2 : (arbiterStep now s).mode = LineFollowing)
    (hstep : camera_callback now s = some s') :
    (holdActive now s → s'.vel_linear = 0 ∧ s'.vel_angular = 0) ∧
    (¬ holdActive now s → s'.vel_linear = normalLinear s ∧
      s'.vel_angular = normalAngular s) :=
  camera_mode2_command now s s' h2 hstep

/-- Concrete mode-2 state for the command-synthesis witnesses. -/
def sX : Ctrl := { init 4 with mode := 2, line_info := [1, 2, 9] }

/-- Witness for `line_follow_command`: with no cycle latched, the tick at
`now = 1` produces the normal line-following command. -/
theorem line_follow_command_witness :
    (lineFollowStep 1 (arbiterStep 1 sX)).vel_linear = normalLinear sX ∧
    (lineFollowStep 1 (arbiterStep 1 sX)).vel_angular = normalAngular sX := by
  refine (line_follow_command 1 sX _ (by decide)
    (camera_mode2 1 sX (by decide) (by decide))).2 ?_
  rintro ⟨hl, -, -, -⟩
  unfold stopLatched at hl
  rcases hl with h | ⟨h, -⟩
  · exact absurd h (by decide)
  · exact h rfl

/-- C7: when no fresh line detection arrives during a line-following tick, the
cached `line_info` record is left untouched by the tick and the angular
velocity applied is exactly the angular-velocity value that record already
carries (`line_info[-1]`), with no recomputation of the steering law. -/
theorem stale_steering_reuse (now : ℚ) (s s' : Ctrl)
    (hstep : camera_callback now s = some s') :
    s'.line_info = s.line_info ∧
    ((arbiterStep now s).mode = LineFollowing → s.line_info ≠ [] →
      ¬ holdActive now s → s'.vel_angular = s.line_info.getLastD 0) := by
  obtain ⟨hli, -⟩ := camera_some_frame now s s' hstep
  refine ⟨hli, fun h2 hn hh => ?_⟩
  have hc := (camera_mode2_command now s s' h2 hstep).2 hh
  rw [hc.2]
  unfold normalAngular
  rw [if_pos hn]

/-- Witness for `stale_steering_reuse`: the cached record `[1, 2, 9]` is
reused, its trailing angular velocity 9 being applied verbatim. -/
theorem stale_steering_reuse_witness :
    (lineFollowStep 1 (arbiterStep 1 sX)).line_info = sX.line_info ∧
    (lineFollowStep 1 (arbiterStep 1 sX)).vel_angular = sX.line_info.getLastD 0 := by
  have h := stale_steering_reuse 1 sX _ (camera_mode2 1 sX (by decide) (by decide))
  refine ⟨h.1, h.2 (by decide) (by decide) ?_⟩
  rintro ⟨hl, -, -, -⟩
  unfold stopLatched at hl
  rcases hl with h' | ⟨h', -⟩
  · exact absurd h' (by decide)
  · exact h' rfl

/-- C8: in tag-following mode, a present marker record's velocity fields are
copied verbatim into the command; when the record is absent the previously
emitted command persists entirely unchanged in both fields. -/
theorem tag_follow_command (now : ℚ) (s s' : Ctrl)
    (h3 : (arbiterStep now s).mode = TagFollowing)
    (hstep : camera_callback now s = some s') :
    (s.apriltag_info = [] → s'.vel_linear = s.vel_linear ∧
      s'.vel_angular = s.vel_angular) ∧
    (∀ a b rest, s.apriltag_info.drop 4 = a :: b :: rest →
      s'.vel_linear = a ∧ s'.vel_angular = b) := by
  unfold TagFollowing at h3
  unfold camera_callback at hstep
  by_cases hd : draw_ok (arbiterStep now s) = true
  · rw [if_pos hd, h3] at hstep
    by_cases ht : (arbiterStep now s).apriltag_info ≠ []
    · rw [if_pos ht] at hstep
      constructor
      · intro h0
        exact absurd (by simpa using h0) ht
      · intro a b rest hdrop
        have hdr : (arbiterStep now s).apriltag_info.drop 4 = a :: b :: rest := by
          simpa using hdrop
        rw [hdr] at hstep
        simp only [Option.some.injEq] at hstep
        subst hstep
        exact ⟨rfl, rfl⟩
    · rw [if_neg ht] at hstep
      simp only [Option.some.injEq] at hstep
      subst hstep
      constructor
      · intro _
        exact ⟨by simp, by simp⟩
      · intro a b rest hdrop
        have h0 : s.apriltag_info = [] := by
          by_contra hne
          exact ht (by simpa using hne)
        rw [h0] at hdrop
        simp at hdrop
  · rw [if_neg hd] at hstep
    simp at hstep

/-- Concrete mode-3 state with a cached marker record `[1,2,3,4,7,8]`. -/
def sT : Ctrl := { init 4 with mode := 3, apriltag_info := [1, 2, 3, 4, 7, 8] }

/-- Concrete mode-3 state with no cached marker record and a previous command
`(5, 6)`. -/
def sU : Ctrl := { init 4 with mode := 3, vel_linear := 5, vel_angular := 6 }

/-- Witness for `tag_follow_command`: a present record's fields 4 and 5 are
copied verbatim; with the record absent the previous `(5, 6)` persists. -/
theorem tag_follow_command_witness :
    (({ sT with mode_timer := 1, vel_linear := 7, vel_angular := 8 } : Ctrl).vel_linear = 7 ∧
     ({ sT with mode_timer := 1, vel_linear := 7, vel_angular := 8 } : Ctrl).vel_angular = 8) ∧
    (({ sU with mode_timer := 1 } : Ctrl).vel_linear = sU.vel_linear ∧
     ({ sU with mode_timer := 1 } : Ctrl).vel_angular = sU.vel_angular) := by
  constructor
  · exact (tag_follow_command 1 sT _ (by decide) (by decide)).2 7 8 [] (by decide)
  · exact (tag_follow_command 1 sU _ (by decide) (by decide)).1 (by decide)

/-- Cache well-formedness: each detection cache is empty or long enough for
every index the controller reads from it (`line_info[0..1]`,
`stop_sign_info[1..4]` and `[-1]`, `apriltag_info[0..5]`,
`velocity_info[0..1]`), and the mode is one of the three dictionary keys. -/
def WF (s : Ctrl) : Prop :=
  (s.line_info = [] ∨ 2 ≤ s.line_info.length) ∧
  (s.stop_sign_info = [] ∨ 5 ≤ s.stop_sign_info.length) ∧
  (s.apriltag_info = [] ∨ 6 ≤ s.apriltag_info.length) ∧
  2 ≤ s.velocity_info.length ∧
  (s.mode = 1 ∨ s.mode = 2 ∨ s.mode = 3)

/-- Message payloads that are empty (treated as "not detected") or carry at
least the fields the controller reads; the obstacle-velocity channel has no
emptiness guard, so its payloads must carry both fields. -/
def MsgOK : Ev → Prop
  | .lineMsg d => d = [] ∨ 2 ≤ d.length
  | .stopMsg d => d = [] ∨ 5 ≤ d.length
  | .tagMsg d => d = [] ∨ 6 ≤ d.length
  | .velMsg d => 2 ≤ d.length
  | .tick _ => True

/-- A list of length at least two starts with two cons cells. -/
lemma exists_cons_cons_of_two_le (l : List ℚ) (h : 2 ≤ l.length) :
    ∃ a b r, l = a :: b :: r := by
  rcases l with _ | ⟨a, _ | ⟨b, r⟩⟩
  · simp at h
  · simp at h
  · exact ⟨a, b, r, rfl⟩

/-- Dropping four elements of a list of length at least six leaves at least
two. -/
lemma drop4_cons_cons (l : List ℚ) (h : 6 ≤ l.length) :
    ∃ a b r, l.drop 4 = a :: b :: r := by
  refine exists_cons_cons_of_two_le _ ?_
  rw [List.length_drop]
  omega

/-- The decision always lands on one of the three modes. -/
lemma mode_decider_mode_cases (s : Ctrl) :
    (mode_decider s).mode = 1 ∨ (mode_decider s).mode = 2 ∨
      (mode_decider s).mode = 3 := by
  unfold mode_decider
  split_ifs <;> simp

/-- The arbiter prologue keeps the previous mode or adopts the decision. -/
lemma arbiterStep_mode_cases (now : ℚ) (s : Ctrl) :
    (arbiterStep now s).mode = s.mode ∨
      (arbiterStep now s).mode = (mode_decider s).mode := by
  unfold arbiterStep
  split_ifs <;> simp

/-- Well-formed caches make the drawing guard pass. -/
lemma draw_ok_of_WF (s : Ctrl) (h : WF s) : draw_ok s = true := by
  obtain ⟨h1, h2, h3, -, -⟩ := h
  unfold draw_ok
  simp only [Bool.and_eq_true, Bool.or_eq_true, List.isEmpty_iff, decide_eq_true_eq]
  refine ⟨⟨?_, ?_⟩, ?_⟩
  · rcases h1 with h | h
    · exact Or.inl h
    · exact Or.inr h
  · rcases h2 with h | h
    · exact Or.inl h
    · exact Or.inr h
  · rcases h3 with h | h
    · exact Or.inl h
    · exact Or.inr (by omega)

/-- C9 counterexample: the claim fails as stated.  An empty message on the
obstacle-velocity channel is stored verbatim by `get_velocity_info`, and the
next tick (mode 1) faults on `velocity_info[0]` instead of producing a
command. -/
theorem perception_fault_counterexample :
    run (init 4) [Ev.velMsg [], Ev.tick 1] = none := by decide

/-- C9 (amended): provided each message is empty or carries its declared
fields — with the obstacle-velocity channel, which has no emptiness guard,
always carrying both fields — every event from a well-formed state completes
without fault, yields a well-formed state, and the arbiter always has a
well-defined mode, defaulting to `ObstacleAvoidance` when no line and no
marker detection is cached. -/
theorem perception_default_safe (s : Ctrl) (e : Ev) (hWF : WF s) (hmsg : MsgOK e) :
    (∃ s', step s e = some s' ∧ WF s') ∧
    (s.line_info = [] → s.apriltag_info = [] →
      (mode_decider s).mode = ObstacleAvoidance) := by
  constructor
  · cases e with
    | lineMsg d =>
        refine ⟨get_line_info s d, rfl, ?_⟩
        obtain ⟨-, h2, h3, h4, h5⟩ := hWF
        unfold get_line_info
        split_ifs with hne
        · exact ⟨by simpa using hmsg, h2, h3, h4, h5⟩
        · exact ⟨Or.inl rfl, h2, h3, h4, h5⟩
    | stopMsg d =>
        refine ⟨get_stop_sign_info s d, rfl, ?_⟩
        obtain ⟨h1, -, h3, h4, h5⟩ := hWF
        unfold get_stop_sign_info
        split_ifs with hne
        · exact ⟨h1, by simpa using hmsg, h3, h4, h5⟩
        · exact ⟨h1, Or.inl rfl, h3, h4, h5⟩
    | tagMsg d =>
        refine ⟨get_apriltag_info s d, rfl, ?_⟩
        obtain ⟨h1, h2, -, h4, h5⟩ := hWF
        unfold get_apriltag_info
        split_ifs with hne
        · exact ⟨h1, h2, by simpa using hmsg, h4, h5⟩
        · exact ⟨h1, h2, Or.inl rfl, h4, h5⟩
    | velMsg d =>
        refine ⟨get_velocity_info s d, rfl, ?_⟩
        obtain ⟨h1, h2, h3, -, h5⟩ := hWF
        exact ⟨h1, h2, h3, hmsg, h5⟩
    | tick now =>
        have hWF1 : WF (arbiterStep now s) := by
          obtain ⟨h1, h2, h3, h4, h5⟩ := hWF
          refine ⟨by simpa using h1, by simpa using h2, by simpa using h3,
            by simpa using h4, ?_⟩
          rcases arbiterStep_mode_cases now s with h | h
          · rw [h]; exact h5
          · rw [h]; exact mode_decider_mode_cases s
        have hd : draw_ok (arbiterStep now s) = true := draw_ok_of_WF _ hWF1
        obtain ⟨g1, g2, g3, g4, g5⟩ := hWF1
        rcases g5 with hm | hm | hm
        · obtain ⟨a, b, r, hab⟩ := exists_cons_cons_of_two_le _ g4
          refine ⟨{ arbiterStep now s with vel_linear := a, vel_angular := b }, ?_, ?_⟩
          · show camera_callback now s = _
            unfold camera_callback
            rw [if_pos hd, hm, hab]
            simp [← hab, hm]
          · exact ⟨by simpa using g1, by simpa using g2, by simpa using g3,
              by simpa [hab] using g4, Or.inl (by simpa using hm)⟩
        · refine ⟨lineFollowStep now (arbiterStep now s), ?_, ?_⟩
          · show camera_callback now s = _
            exact camera_mode2 now s hm hd
          · exact ⟨by simpa using g1, by simpa using g2, by simpa using g3,
              by simpa using g4, Or.inr (Or.inl (by simpa using hm))⟩
        · by_cases ht : (arbiterStep now s).apriltag_info = []
          · refine ⟨arbiterStep now s, ?_, ⟨g1, g2, g3, g4, Or.inr (Or.inr hm)⟩⟩
            show camera_callback now s = _
            unfold camera_callback
            rw [if_pos hd, hm, if_neg (by simpa using ht)]
          · have h6 : 6 ≤ (arbiterStep now s).apriltag_info.length := by
              rcases g3 with h | h
              · exact absurd h ht
              · exact h
            obtain ⟨a, b, r, hab⟩ := drop4_cons_cons _ h6
            refine ⟨{ arbiterStep now s with vel_linear := a, vel_angular := b }, ?_, ?_⟩
            · show camera_callback now s = _
              unfold camera_callback
              rw [if_pos hd, hm, if_pos (by simpa using ht), hab]
              simp [hm]
            · exact ⟨by simpa using g1, by simpa using g2, by simpa using g3,
                by simpa using g4, Or.inr (Or.inr (by simpa using hm))⟩
  · intro hl htag
    unfold mode_decider ObstacleAvoidance
    rw [if_neg (by simp [hl]), if_neg (by simp [hl]), if_neg (by simp [htag])]

/-- Witness for `perception_default_safe`: the first tick from the initial
state completes and preserves well-formedness. -/
theorem perception_default_safe_witness :
    (∃ s', step (init 4) (Ev.tick 1) = some s' ∧ WF s') ∧
    ((init 4).line_info = [] → (init 4).apriltag_info = [] →
      (mode_decider (init 4)).mode = ObstacleAvoidance) :=
  perception_default_safe (init 4) (Ev.tick 1)
    (by unfold WF init; norm_num) trivial

/-- C10: on the tick that completes a stop-maneuver cycle, the latch is
cleared after the trigger check ran, so even a cached above-threshold sign
record present that tick cannot keep the old cycle alive — the tick always
ends with the latch and both timers cleared and the sign cache untouched
(conjunct 1); and because the trigger re-reads the cached last-value-wins
sign record, a stale cached record with area ≥ 3300 starts a brand-new cycle
with a fresh trigger timestamp on the very next line-following tick after
completion (conjunct 2). -/
theorem latch_clear_and_rearm (now : ℚ) (s s' : Ctrl)
    (h2 : (arbiterStep now s).mode = LineFollowing)
    (hstep : camera_callback now s = some s') :
    (s.is_stop_sign = true → s.timer1 ≠ 0 → s.timer2 ≠ 0 →
      18 ≤ now - s.timer1 → 3 ≤ now - s.timer2 →
      s'.is_stop_sign = false ∧ s'.timer1 = 0 ∧ s'.timer2 = 0 ∧
      s'.stop_sign_info = s.stop_sign_info) ∧
    (s.is_stop_sign = false → s.timer1 = 0 → s.stop_sign_info ≠ [] →
      3300 ≤ s.stop_sign_info.getLastD 0 →
      s'.is_stop_sign = true ∧ s'.timer1 = now ∧ s'.timer2 = s.timer2) := by
  have hs' := camera_mode2_inv now s s' h2 hstep
  subst hs'
  rw [lineFollowStep]
  set t := signTrigger (lineSteer (lineDefault (arbiterStep now s))) with htdef
  have htl : t.timer1 = s.timer1 := by simp [htdef]
  have ht2 : t.timer2 = s.timer2 := by simp [htdef]
  constructor
  · intro hss h1 h2n h18 h3
    have hT : t.is_stop_sign = true := by
      refine (trigger_latch (arbiterStep now s)).mpr ?_
      exact Or.inl (by simpa using hss)
    rw [stopTimerStep_clear now t hT (by rw [htl]; exact h1)
      (by rw [htl]; exact h18) (by rw [ht2]; exact h2n)
      (by rw [ht2]; exact not_lt.mp (not_lt.mpr h3))]
    exact ⟨rfl, rfl, rfl, by simp [htdef]⟩
  · intro hss h10 hsn hsa
    have hT : t.is_stop_sign = true := by
      refine (trigger_latch (arbiterStep now s)).mpr ?_
      refine Or.inr ⟨by simpa using hsn, ?_⟩
      rw [arbiterStep_stop]
      exact hsa
    rw [stopTimerStep_seed now t hT (by rw [htl]; exact h10)]
    exact ⟨by simpa using hT, rfl, by simpa using ht2⟩

/-- Completion-tick state for the rearm witness: cycle holding since `t = 21`,
triggered at `t = 2`, with an above-threshold sign record still cached. -/
def sY : Ctrl :=
  { line_info := [1, 2, 9], stop_sign_info := [9, 1, 2, 3, 3400],
    apriltag_info := [], velocity_info := [4, 0], timer1 := 2, timer2 := 21,
    mode_timer := 0, mode := 2, is_stop_sign := true, transition_threshold := 1,
    vel_linear := 0, vel_angular := 0, linear_x := 4 }

/-- The same state right after the cycle cleared. -/
def sZ : Ctrl :=
  { sY with timer1 := 0, timer2 := 0, is_stop_sign := false }

/-- Witness for `latch_clear_and_rearm`: the tick at `now = 25` clears the
cycle despite the cached area-3400 record, and the next line-following tick
at `now = 26` starts a fresh cycle from that same stale record. -/
theorem latch_clear_and_rearm_witness :
    ((lineFollowStep 25 (arbiterStep 25 sY)).is_stop_sign = false ∧
     (lineFollowStep 25 (arbiterStep 25 sY)).timer1 = 0 ∧
     (lineFollowStep 25 (arbiterStep 25 sY)).timer2 = 0 ∧
     (lineFollowStep 25 (arbiterStep 25 sY)).stop_sign_info = sY.stop_sign_info) ∧
    ((lineFollowStep 26 (arbiterStep 26 sZ)).is_stop_sign = true ∧
     (lineFollowStep 26 (arbiterStep 26 sZ)).timer1 = 26 ∧
     (lineFollowStep 26 (arbiterStep 26 sZ)).timer2 = sZ.timer2) := by
  constructor
  · exact (latch_clear_and_rearm 25 sY _ (by decide)
      (camera_mode2 25 sY (by decide) (by decide))).1
      rfl (by norm_num [sY]) (by norm_num [sY]) (by norm_num [sY]) (by norm_num [sY])
  · exact (latch_clear_and_rearm 26 sZ _ (by decide)
      (camera_mode2 26 sZ (by decide) (by decide))).2
      rfl rfl (by decide) (by decide)

end TurtleBot
